import Mathlib

/-
Verification of the wallpaper selection engine of wallpaper-utils
(src/darkscore-select.cpp), as a shallow embedding in Lean.

Scores are embedded as rationals: the source compares a double score
against the fixed literals 0.9, 0.8, 0.6, 0.4, 0.2, 0.0 with strict
comparisons, and every comparison stated in the theorems below compares a
literal against the same literal or against an independent value, so the
comparison results agree with the exact rational reading of the literals.

The pseudo-random shuffles (std::shuffle driven by a std::mt19937 seeded
from std::random_device) are embedded as oracle functions of type
Shuffle; theorems that depend on the shuffles being permutations carry an
explicit hypothesis to that effect.
-/

namespace DarkscoreSelect

/-- Embeds struct DarkScoreResult: a file path with its darkness score. -/
structure DarkScoreResult where
  filePath : String
  score : ℚ
deriving DecidableEq, Repr, Inhabited

/-- The six brightness buckets, each a sequence of scored images. -/
abbrev Buckets := Fin 6 → List DarkScoreResult

/-- One invocation of std::shuffle, embedded as an oracle that rearranges a
list. Theorems that need it assume the oracle returns a permutation. -/
abbrev Shuffle := List DarkScoreResult → List DarkScoreResult

/-- Embeds getDarknessBucket (darkscore-select.cpp lines 89 to 98): maps a
darkness score (0 bright, 1 dark) to a bucket 0 (darkest) .. 5 (brightest). -/
def getDarknessBucket (score : ℚ) : Fin 6 :=
  if score > 0.9 then 0
  else if score > 0.8 then 1
  else if score > 0.6 then 2
  else if score > 0.4 then 3
  else if score > 0.2 then 4
  else if score > 0.0 then 5
  else 5

/-- Embeds getTargetBucketForHour (darkscore-select.cpp lines 100 to 113). -/
def getTargetBucketForHour (hour : Int) : Fin 6 :=
  if hour ≥ 21 then 0
  else if hour ≥ 20 then 1
  else if hour ≥ 19 then 2
  else if hour ≥ 18 then 3
  else if hour ≥ 17 then 4
  else if hour ≥ 12 then 5
  else if hour ≥ 9 then 2
  else if hour ≥ 7 then 2
  else if hour ≥ 5 then 1
  else if hour ≥ 0 then 0
  else 0

end DarkscoreSelect

namespace DarkscoreSelect

/-- Value of a list of decimal digit characters. -/
def digitsVal (ds : List Char) : Nat :=
  ds.foldl (fun a c => 10 * a + (c.toNat - 48)) 0

/-- Modelled from the spec: std::stod, applied by loadBuckets to the score
field, is standard library code not present under src. The spec calls the
field a decimal in the unit interval; we model parsing of an optional sign,
an integer part and an optional fractional part, failing when no digit is
present, which is exactly when std::stod throws and the row is skipped. -/
def parseScore (s : String) : Option ℚ :=
  let cs := s.toList
  let rest := if cs.head? = some '-' ∨ cs.head? = some '+' then cs.drop 1 else cs
  let intDigits := rest.takeWhile Char.isDigit
  let rest2 := rest.drop intDigits.length
  let fracDigits :=
    if rest2.head? = some '.' then (rest2.drop 1).takeWhile Char.isDigit else []
  if intDigits.isEmpty ∧ fracDigits.isEmpty then none
  else
    let q : ℚ :=
      if fracDigits.isEmpty then (digitsVal intDigits : ℚ)
      else
        (digitsVal intDigits : ℚ) +
          (digitsVal fracDigits : ℚ) / ((10 : ℚ) ^ fracDigits.length)
    some (if cs.head? = some '-' then -q else q)

/-- Processing of a single data row of loadBuckets (darkscore-select.cpp
lines 135 to 144): none when the row has fewer than two fields or its score
field does not parse, otherwise the image the row describes. -/
def parseRow (fields : List String) : Option DarkScoreResult :=
  if fields.length < 2 then none
  else
    match parseScore (fields.getD 1 "") with
    | none => none
    | some sc => some ⟨fields.getD 0 "", sc⟩

/-- Embeds the row-processing loop of loadBuckets (darkscore-select.cpp lines
133 to 148): rows that parseRow rejects are skipped without aborting, every
other row is appended to the bucket getDarknessBucket assigns to its score.
The accumulator is the buckets vector being filled. -/
def loadLoop (acc : Buckets) : List (List String) → Buckets
  | [] => acc
  | fields :: rest =>
    match parseRow fields with
    | none => loadLoop acc rest
    | some image =>
      loadLoop
        (Function.update acc (getDarknessBucket image.score)
          (acc (getDarknessBucket image.score) ++ [image])) rest

/-- Embeds loadBuckets (darkscore-select.cpp lines 120 to 151). The input
file is given as its lines already split into fields, since csv_split and
CSV_DELIM live in a header that is not under src; per the spec the file is a
delimited tabular text file whose header row is ignored. -/
def loadBuckets (lines : List (List String)) : Buckets :=
  loadLoop (fun _ => []) (lines.drop 1)

/-- Bucket index below the target, as the source computes targetBucket
minus offset guarded by the test that it is not negative. -/
def finDown (t : Fin 6) (o : Nat) : Fin 6 :=
  ⟨t.val - o, Nat.lt_of_le_of_lt (Nat.sub_le t.val o) t.isLt⟩

/-- The downward candidate test of one iteration of the fallback loop
(darkscore-select.cpp lines 185 to 188): the bucket at distance o below the
target, accepted when it is in range and non-empty. -/
def downTest (ne : Fin 6 → Bool) (t : Fin 6) (o : Nat) : Option (Fin 6) :=
  if o ≤ t.val ∧ ne (finDown t o) then some (finDown t o) else none

/-- Embeds the fallback while loop of getNext (darkscore-select.cpp lines
176 to 189), parametrised by the bucket non-emptiness pattern ne, the only
information about the buckets the loop reads. The argument offset is the
loop variable before its increment; each iteration increments it, tests the
upward candidate first, then the downward one. The loop condition offset
less than 6 is carried as the structural fuel 6 - offset, so the function
computes by plain reduction; fuel 0 is exactly the loop exit. -/
def searchGo (ne : Fin 6 → Bool) (t : Fin 6) (offset : Nat) : Nat → Option (Fin 6)
  | 0 => none
  | fuel + 1 =>
    if hup : t.val + (offset + 1) < 6 then
      if ne ⟨t.val + (offset + 1), hup⟩ then some ⟨t.val + (offset + 1), hup⟩
      else
        match downTest ne t (offset + 1) with
        | some c => some c
        | none => searchGo ne t (offset + 1) fuel
    else
      match downTest ne t (offset + 1) with
      | some c => some c
      | none => searchGo ne t (offset + 1) fuel

/-- The full fallback resolution of getNext on a non-emptiness pattern: the
target itself when non-empty, otherwise the result of the while loop run
from offset 0 with its 6 remaining iterations; none means the loop left the
chosen bucket empty and getNext throws. -/
def fallbackSearch (ne : Fin 6 → Bool) (t : Fin 6) : Option (Fin 6) :=
  if ne t then some t else searchGo ne t 0 6

/-- The non-emptiness pattern of a bucket set. -/
def bucketsNonempty (bs : Buckets) : Fin 6 → Bool :=
  fun i => !(bs i).isEmpty

/-- Fallback resolution of getNext over actual buckets (darkscore-select.cpp
lines 175 to 193). -/
def chooseBucket (bs : Buckets) (t : Fin 6) : Option (Fin 6) :=
  fallbackSearch (bucketsNonempty bs) t

/-- Rotation state of BucketIterator: the shuffled buckets, one cursor per
bucket, and the last used bucket, an int initialised to minus one. -/
structure IterState where
  shuffledBuckets : Buckets
  currentIndices : Fin 6 → Nat
  lastUsedBucket : Int
deriving DecidableEq

/-- Embeds the BucketIterator constructor (darkscore-select.cpp lines 160
to 170): every bucket is shuffled once initially, cursors start at 0, and
lastUsedBucket starts at minus one. The per-bucket initial shuffles are
oracle arguments. -/
def initIter (buckets : Buckets) (sh : Fin 6 → Shuffle) : IterState :=
  { shuffledBuckets := fun i => sh i (buckets i)
    currentIndices := fun _ => 0
    lastUsedBucket := -1 }

/-- Embeds the bucket-change block of getNext (darkscore-select.cpp lines
196 to 205): when the chosen bucket differs from lastUsedBucket, its cursor
is reset to 0, it is reshuffled, and lastUsedBucket is updated; otherwise
the state is untouched. -/
def switchReshuffle (sh1 : Shuffle) (s : IterState) (c : Fin 6) : IterState :=
  if (c.val : Int) ≠ s.lastUsedBucket then
    { shuffledBuckets :=
        Function.update s.shuffledBuckets c (sh1 (s.shuffledBuckets c))
      currentIndices := Function.update s.currentIndices c 0
      lastUsedBucket := (c.val : Int) }
  else s

/-- Embeds the read-and-advance block of getNext (darkscore-select.cpp lines
207 to 222). Note the aliasing in the source: result is a const reference
into the bucket vector taken at the cursor position, the cursor is advanced,
and in the wraparound case the vector is reshuffled in place before the
return statement copies the referenced element; so on a wraparound call the
value actually returned is the element the reshuffle left at the old cursor
position of the reshuffled vector, not the element that was there when the
reference was taken. The embedding reproduces this faithfully. -/
def readAdvance (sh2 : Shuffle) (s : IterState) (c : Fin 6) :
    Except String DarkScoreResult × IterState :=
  if s.currentIndices c + 1 ≥ (s.shuffledBuckets c).length then
    (Except.ok ((sh2 (s.shuffledBuckets c)).getD (s.currentIndices c) default),
      { s with
        currentIndices := Function.update s.currentIndices c 0
        shuffledBuckets := Function.update s.shuffledBuckets c (sh2 (s.shuffledBuckets c)) })
  else
    (Except.ok ((s.shuffledBuckets c).getD (s.currentIndices c) default),
      { s with
        currentIndices :=
          Function.update s.currentIndices c (s.currentIndices c + 1) })

/-- Embeds BucketIterator getNext (darkscore-select.cpp lines 172 to 223).
The two std::shuffle invocations it may perform are the oracle arguments
sh1 (bucket-change reshuffle) and sh2 (wraparound reshuffle). On failure the
runtime error is raised before any state mutation, so the state comes back
unchanged. -/
def getNext (sh1 sh2 : Shuffle) (s : IterState) (t : Fin 6) :
    Except String DarkScoreResult × IterState :=
  match chooseBucket s.shuffledBuckets t with
  | none => (Except.error "No wallpapers available in any brightness bucket!", s)
  | some c => readAdvance sh2 (switchReshuffle sh1 s c) c

/-- A run of consecutive getNext calls with a fixed target; call number i
uses the pair of shuffle oracles osh i. -/
def runGetNext (osh : Nat → Shuffle × Shuffle) (s : IterState) (t : Fin 6) :
    Nat → List (Except String DarkScoreResult) × IterState
  | 0 => ([], s)
  | Nat.succ n =>
    let r := getNext (osh 0).1 (osh 0).2 s t
    let rest := runGetNext (fun i => osh (i + 1)) r.2 t n
    (r.1 :: rest.1, rest.2)

/-- The BucketIterator state invariant: each non-empty bucket's cursor is
strictly inside the bucket, each empty bucket's cursor is 0, so a cursor
never rests at the one-past-the-end position. -/
def IterInv (s : IterState) : Prop :=
  ∀ i : Fin 6,
    (s.shuffledBuckets i = [] → s.currentIndices i = 0) ∧
    (s.shuffledBuckets i ≠ [] → s.currentIndices i < (s.shuffledBuckets i).length)

instance (s : IterState) : Decidable (IterInv s) := by
  unfold IterInv; infer_instance

/-- Candidate examined at one offset, as the specification words it: test
the upward bucket first, and the downward bucket only if the upward one is
empty or out of range. -/
def specCandidate (ne : Fin 6 → Bool) (t : Fin 6) (o : Nat) : Option (Fin 6) :=
  if hup : t.val + o < 6 then
    if ne ⟨t.val + o, hup⟩ then some ⟨t.val + o, hup⟩
    else if o ≤ t.val ∧ ne (finDown t o) then some (finDown t o) else none
  else if o ≤ t.val ∧ ne (finDown t o) then some (finDown t o) else none

/-- The fallback search as the specification words it: the target itself if
non-empty, otherwise the first non-empty candidate over increasing offsets
1 to 5. -/
def specFallbackSearch (ne : Fin 6 → Bool) (t : Fin 6) : Option (Fin 6) :=
  if ne t then some t
  else [1, 2, 3, 4, 5].findSome? (specCandidate ne t)

/-- Embeds the fallback resolution of single execution mode
(darkscore-select.cpp lines 450 to 464), which repeats the same loop as
getNext over the static buckets: the identical statements are embedded by
the same searchLoop. -/
def oneShotChoose (bs : Buckets) (t : Fin 6) : Option (Fin 6) :=
  if (bs t).isEmpty then searchGo (fun i => !(bs i).isEmpty) t 0 6
  else some t

/-- Embeds the random pick of single execution mode (darkscore-select.cpp
lines 466 to 474): the uniformly drawn index inside the resolved bucket is
the oracle argument r; none embeds the runtime error raised when every
bucket is empty. No iterator state exists on this path. -/
def oneShotSelect (bs : Buckets) (t : Fin 6) (r : Nat) : Option DarkScoreResult :=
  match oneShotChoose bs t with
  | none => none
  | some c => some ((bs c).getD r default)

instance {ε α : Type} [DecidableEq ε] [DecidableEq α] : DecidableEq (Except ε α) :=
  fun a b =>
    match a, b with
    | .ok x, .ok y =>
      if h : x = y then .isTrue (by rw [h])
      else .isFalse (fun hc => h (Except.ok.inj hc))
    | .error x, .error y =>
      if h : x = y then .isTrue (by rw [h])
      else .isFalse (fun hc => h (Except.error.inj hc))
    | .ok _, .error _ => .isFalse (fun hc => Except.noConfusion hc)
    | .error _, .ok _ => .isFalse (fun hc => Except.noConfusion hc)

/-- Buckets with only bucket 5 populated, by three images. -/
def c1buckets : Buckets :=
  fun i => if i = 5 then [⟨"A", 0⟩, ⟨"B", 0⟩, ⟨"C", 0⟩] else []

/-- A fresh iterator over c1buckets whose initial shuffles leave every
bucket in place. -/
def c1state : IterState := initIter c1buckets (fun _ => id)

/-- Shuffle oracles for the c1state run: every bucket-change reshuffle is
the identity and every wraparound reshuffle reverses the bucket. -/
def c1oracles : Nat → Shuffle × Shuffle := fun _ => (id, List.reverse)

/-- An iterator state mid-pass through bucket 5 of two images: bucket 5 was
the last used bucket and its cursor stands on the second image. -/
def c2state : IterState :=
  { shuffledBuckets := fun i => if i = 5 then [⟨"D", 0⟩, ⟨"E", 0⟩] else []
    currentIndices := fun i => if i = 5 then 1 else 0
    lastUsedBucket := 5 }

/-- The buckets of the C3 scenario: only bucket 3 holds an image. -/
def c3buckets : Buckets :=
  fun i => if i = 3 then [⟨"scenarioA", 0⟩] else []

/-- Buckets with a single image in bucket 4, for concrete instantiation. -/
def c4buckets : Buckets :=
  fun i => if i = 4 then [⟨"w", 0⟩] else []

/-- A fresh iterator over c4buckets with identity initial shuffles. -/
def c4state : IterState := initIter c4buckets (fun _ => id)

/-- Buckets with two images in bucket 0, for concrete instantiation. -/
def c7buckets : Buckets :=
  fun i => if i = 0 then [⟨"n1", 1⟩, ⟨"n2", 1⟩] else []

/-- A fresh iterator over c7buckets with identity initial shuffles. -/
def c7state : IterState := initIter c7buckets (fun _ => id)

/-- Buckets with two images in bucket 1, for concrete instantiation. -/
def c9buckets : Buckets :=
  fun i => if i = 1 then [⟨"p", 1⟩, ⟨"q", 1⟩] else []

/-- Buckets with images in buckets 2 and 5, for concrete instantiation. -/
def c10buckets : Buckets :=
  fun i =>
    if i = 2 then [⟨"u", 1⟩, ⟨"v", 1⟩]
    else if i = 5 then [⟨"w5", 0⟩] else []

/-- A fresh iterator over c10buckets with identity initial shuffles. -/
def c10state : IterState := initIter c10buckets (fun _ => id)

end DarkscoreSelect

namespace DarkscoreSelect

/-- Claim C5: for every hour in 0..23, getTargetBucketForHour returns exactly
the bucket of the fixed step table (hour at least 21 gives 0, at least 20
gives 1, at least 19 gives 2, at least 18 gives 3, at least 17 gives 4, at
least 12 gives 5, at least 9 gives 2, at least 7 gives 2, at least 5 gives 1,
at least 0 gives 0), here spelled out as the 24-entry value table, including
the non-monotonic segment between hours 9 and 17. -/
theorem c5_hour_table :
    ∀ h : Fin 24,
      getTargetBucketForHour (h.val : Int) =
        ([0, 0, 0, 0, 0, 1, 1, 2, 2, 2, 2, 2, 5, 5, 5, 5, 5, 4, 3, 2, 1, 0, 0, 0] :
          List (Fin 6)).getD h.val 0 := by
  decide

/-- Claim C6: getDarknessBucket realises the fixed threshold table with
strict comparisons, so each boundary value falls into the next (brighter)
bucket. -/
theorem c6_score_thresholds :
    ∀ s : ℚ,
      ((getDarknessBucket s = 0 ↔ 0.9 < s)
        ∧ (getDarknessBucket s = 1 ↔ 0.8 < s ∧ s ≤ 0.9)
        ∧ (getDarknessBucket s = 2 ↔ 0.6 < s ∧ s ≤ 0.8)
        ∧ (getDarknessBucket s = 3 ↔ 0.4 < s ∧ s ≤ 0.6)
        ∧ (getDarknessBucket s = 4 ↔ 0.2 < s ∧ s ≤ 0.4)
        ∧ (getDarknessBucket s = 5 ↔ s ≤ 0.2))
      ∧ getDarknessBucket 0.9 = 1 ∧ getDarknessBucket 0.8 = 2
      ∧ getDarknessBucket 0.6 = 3 ∧ getDarknessBucket 0.4 = 4
      ∧ getDarknessBucket 0.2 = 5 ∧ getDarknessBucket 0 = 5 := by
  intro s
  constructor
  · unfold getDarknessBucket
    split_ifs with h1 h2 h3 h4 h5 h6 <;>
      refine ⟨⟨fun hk => ?_, fun hp => ?_⟩, ⟨fun hk => ?_, fun hp => ?_⟩,
        ⟨fun hk => ?_, fun hp => ?_⟩, ⟨fun hk => ?_, fun hp => ?_⟩,
        ⟨fun hk => ?_, fun hp => ?_⟩, ⟨fun hk => ?_, fun hp => ?_⟩⟩ <;>
      first
        | rfl
        | linarith
        | (exact absurd hk (by decide))
        | (exact ⟨by linarith, by linarith⟩)
  · refine ⟨?_, ?_, ?_, ?_, ?_, ?_⟩ <;> norm_num [getDarknessBucket]

/-- Helper: the fallback search only answers a non-empty bucket. -/
theorem fallback_mem :
    ∀ (ne : Fin 6 → Bool) (t c : Fin 6), fallbackSearch ne t = some c → ne c = true := by
  decide

/-- Helper: the fallback search succeeds whenever some bucket is non-empty. -/
theorem fallback_total :
    ∀ (ne : Fin 6 → Bool) (t : Fin 6),
      (∃ i, ne i = true) → ∃ c, fallbackSearch ne t = some c := by
  decide

/-- Helper: the fallback search fails on the all-empty pattern. -/
theorem fallback_allEmpty : ∀ t : Fin 6, fallbackSearch (fun _ => false) t = none := by
  decide

/-- Helper: getD inside the list bounds is a member of the list. -/
theorem getD_mem_of_lt {α : Type} [Inhabited α] {l : List α} {i : Nat}
    (h : i < l.length) : l.getD i default ∈ l := by
  rw [List.getD_eq_getElem l default h]
  exact List.getElem_mem h

/-- Helper: a bucket chosen by the fallback resolution is non-empty. -/
theorem chooseBucket_nonempty {bs : Buckets} {t c : Fin 6}
    (h : chooseBucket bs t = some c) : bs c ≠ [] := by
  have hb := fallback_mem (bucketsNonempty bs) t c h
  simp only [bucketsNonempty, Bool.not_eq_true'] at hb
  intro hnil
  rw [hnil] at hb
  simp at hb

/-- Helper: the fallback resolution succeeds whenever some bucket is
non-empty. -/
theorem chooseBucket_total {bs : Buckets} (t : Fin 6) (h : ∃ i, bs i ≠ []) :
    ∃ c, chooseBucket bs t = some c := by
  apply fallback_total
  obtain ⟨i, hi⟩ := h
  exact ⟨i, by simp [bucketsNonempty, hi]⟩

/-- Helper: state facts across the bucket-change block, for a non-empty
chosen bucket: order of the chosen bucket stays a permutation, its cursor
lands strictly inside it, the invariant is preserved, and every bucket keeps
its membership. -/
theorem switchReshuffle_facts (sh1 : Shuffle) (hp : ∀ l, (sh1 l).Perm l)
    (s : IterState) (c : Fin 6) (hinv : IterInv s) (hne : s.shuffledBuckets c ≠ []) :
    ((switchReshuffle sh1 s c).shuffledBuckets c).Perm (s.shuffledBuckets c)
    ∧ (switchReshuffle sh1 s c).currentIndices c <
        ((switchReshuffle sh1 s c).shuffledBuckets c).length
    ∧ IterInv (switchReshuffle sh1 s c)
    ∧ ∀ i, ((switchReshuffle sh1 s c).shuffledBuckets i).Perm (s.shuffledBuckets i) := by
  unfold switchReshuffle
  split_ifs with h
  · have hplen := (hp (s.shuffledBuckets c)).length_eq
    have hpos : 0 < (s.shuffledBuckets c).length := List.length_pos.mpr hne
    refine ⟨?_, ?_, ?_, ?_⟩
    · simp only [Function.update_same]
      exact hp _
    · simp only [Function.update_same]
      omega
    · intro i
      by_cases hic : i = c
      · subst hic
        simp only [Function.update_same]
        exact ⟨fun _ => trivial, fun _ => by omega⟩
      · simp only [Function.update_noteq hic]
        exact hinv i
    · intro i
      by_cases hic : i = c
      · subst hic
        simp only [Function.update_same]
        exact hp _
      · simp only [Function.update_noteq hic]
        exact List.Perm.refl _
  · exact ⟨List.Perm.refl _, (hinv c).2 hne, hinv, fun i => List.Perm.refl _⟩

/-- Helper: facts across the read-and-advance block when the cursor is in
bounds: the call returns ok with a member of the chosen bucket, the
invariant is preserved, and every bucket keeps its membership. -/
theorem readAdvance_facts (sh2 : Shuffle) (hp : ∀ l, (sh2 l).Perm l)
    (s : IterState) (c : Fin 6)
    (hlt : s.currentIndices c < (s.shuffledBuckets c).length) (hinv : IterInv s) :
    (∃ r, (readAdvance sh2 s c).1 = Except.ok r ∧ r ∈ s.shuffledBuckets c)
    ∧ IterInv (readAdvance sh2 s c).2
    ∧ ∀ i, ((readAdvance sh2 s c).2.shuffledBuckets i).Perm (s.shuffledBuckets i) := by
  have hplen := (hp (s.shuffledBuckets c)).length_eq
  unfold readAdvance
  split_ifs with h
  · refine ⟨⟨_, rfl, ?_⟩, ?_, ?_⟩
    · have hlt2 : s.currentIndices c < (sh2 (s.shuffledBuckets c)).length := by omega
      exact (hp _).subset (getD_mem_of_lt hlt2)
    · intro i
      by_cases hic : i = c
      · subst hic
        simp only [Function.update_same]
        exact ⟨fun _ => trivial, fun _ => by omega⟩
      · simp only [Function.update_noteq hic]
        exact hinv i
    · intro i
      by_cases hic : i = c
      · subst hic
        simp only [Function.update_same]
        exact hp _
      · simp only [Function.update_noteq hic]
        exact List.Perm.refl _
  · refine ⟨⟨_, rfl, getD_mem_of_lt hlt⟩, ?_, fun i => List.Perm.refl _⟩
    intro i
    by_cases hic : i = c
    · subst hic
      simp only [Function.update_same]
      exact ⟨fun hnil => absurd hlt (by rw [hnil]; simp), fun _ => by omega⟩
    · simp only [Function.update_noteq hic]
      exact hinv i

/-- Claim C1, evaluated on the code at its own scenario: only bucket 5 is
populated, with images A, B, C, initial shuffles leave the buckets in place,
and the wraparound reshuffle of the third call reverses the bucket. The
three consecutive getNext calls return A, B and then A again, so image A is
returned twice and image C never, within one full pass; the claim of one
occurrence of every image per pass fails, because the source returns a
reference into the vector that the wraparound reshuffle has already
permuted. The fourth call still succeeds, with the cursor back at 0. -/
theorem c1_pass_duplicates :
    (runGetNext c1oracles c1state 2 3).1 =
      [Except.ok ⟨"A", 0⟩, Except.ok ⟨"B", 0⟩, Except.ok ⟨"A", 0⟩]
    ∧ Except.ok (⟨"C", 0⟩ : DarkScoreResult) ∉ (runGetNext c1oracles c1state 2 3).1
    ∧ (runGetNext c1oracles c1state 2 3).1.count (Except.ok ⟨"A", 0⟩) = 2
    ∧ (runGetNext c1oracles c1state 2 3).2.currentIndices 5 = 0
    ∧ (getNext (c1oracles 3).1 (c1oracles 3).2 (runGetNext c1oracles c1state 2 3).2 2).1 =
        Except.ok ⟨"C", 0⟩ := by
  refine ⟨by decide, by decide, by decide, by decide, by decide⟩

/-- Claim C2, evaluated on the code at a wraparound call: bucket 5 holds D
then E, its cursor stands on E, bucket 5 was the last used bucket. The item
read at order 5 cursor position before the reshuffle is E, yet when the
wraparound reshuffle reverses the bucket the call returns D, and the value
returned by an identical call differs between the identity wraparound
reshuffle and the reversing one: the reshuffle does change the value
returned by the current call, against the claim. -/
theorem c2_wraparound_alias :
    (getNext id List.reverse c2state 5).1 = Except.ok ⟨"D", 0⟩
    ∧ (c2state.shuffledBuckets 5).getD (c2state.currentIndices 5) default =
        ⟨"E", 0⟩
    ∧ (getNext id id c2state 5).1 ≠ (getNext id List.reverse c2state 5).1 := by
  refine ⟨by decide, by decide, by decide⟩

/-- Claim C3: the fallback resolution of getNext coincides with the search
the specification describes, outward by increasing offset with the upward
candidate preferred at each offset, for every non-emptiness pattern and
target; and in the scenario with only bucket 3 populated and target 2, the
resolution picks bucket 3 and getNext returns its image. -/
theorem c3_fallback_outward :
    (∀ (ne : Fin 6 → Bool) (t : Fin 6), fallbackSearch ne t = specFallbackSearch ne t)
    ∧ chooseBucket c3buckets 2 = some 3
    ∧ (getNext id id (initIter c3buckets (fun _ => id)) 2).1 =
        Except.ok ⟨"scenarioA", 0⟩ := by
  refine ⟨by decide, by decide, by decide⟩

/-- Claim C4: under the iterator invariant and permutation shuffles, getNext
fails, with the no-wallpapers error and a completely unmodified state,
exactly when all six buckets are empty; and whenever some bucket is
non-empty it returns ok with an image belonging to a non-empty bucket. -/
theorem c4_error_iff_all_empty (sh1 sh2 : Shuffle)
    (hp1 : ∀ l, (sh1 l).Perm l) (hp2 : ∀ l, (sh2 l).Perm l)
    (s : IterState) (t : Fin 6) (hinv : IterInv s) :
    ((∀ i, s.shuffledBuckets i = []) →
      getNext sh1 sh2 s t =
        (Except.error "No wallpapers available in any brightness bucket!", s))
    ∧ ((∃ i, s.shuffledBuckets i ≠ []) →
      ∃ c r, s.shuffledBuckets c ≠ []
        ∧ (getNext sh1 sh2 s t).1 = Except.ok r
        ∧ r ∈ s.shuffledBuckets c) := by
  constructor
  · intro h
    have hne : bucketsNonempty s.shuffledBuckets = fun _ => false :=
      funext fun i => by simp [bucketsNonempty, h i]
    unfold getNext chooseBucket
    rw [hne, fallback_allEmpty t]
  · intro h
    obtain ⟨c, hc⟩ := chooseBucket_total t h
    have hnec := chooseBucket_nonempty hc
    obtain ⟨hperm, hlt, hinv1, hperms⟩ := switchReshuffle_facts sh1 hp1 s c hinv hnec
    obtain ⟨⟨r, hr, hrmem⟩, hinv2, hperms2⟩ :=
      readAdvance_facts sh2 hp2 (switchReshuffle sh1 s c) c hlt hinv1
    refine ⟨c, r, hnec, ?_, hperm.subset hrmem⟩
    unfold getNext
    rw [hc]
    exact hr

/-- Claim C4 witness: with one image in bucket 4 and identity shuffles,
getNext succeeds and returns a member of bucket 4. -/
theorem c4_error_iff_all_empty_witness :
    ∃ c r, c4state.shuffledBuckets c ≠ []
      ∧ (getNext id id c4state 1).1 = Except.ok r
      ∧ r ∈ c4state.shuffledBuckets c :=
  (c4_error_iff_all_empty id id (fun l => List.Perm.refl l) (fun l => List.Perm.refl l)
    c4state 1 (by decide)).2 ⟨4, by decide⟩

/-- Claim C7: with permutation shuffles, on a call whose chosen bucket
differs from lastUsedBucket (the first call included, lastUsedBucket being
minus one then, and regardless of what caused the difference), the chosen
bucket's cursor is reset to 0 and its order reshuffled before the read, and
lastUsedBucket becomes the chosen bucket, so the call returns the first
element of the reshuffled order; on a call whose chosen bucket equals
lastUsedBucket, the bucket-change block leaves the state untouched and
lastUsedBucket is unchanged. -/
theorem c7_switch_reset (sh1 sh2 : Shuffle)
    (hp1 : ∀ l, (sh1 l).Perm l) (hp2 : ∀ l, (sh2 l).Perm l)
    (s : IterState) (t c : Fin 6)
    (hch : chooseBucket s.shuffledBuckets t = some c) :
    ((c.val : Int) ≠ s.lastUsedBucket →
      switchReshuffle sh1 s c =
        { shuffledBuckets :=
            Function.update s.shuffledBuckets c (sh1 (s.shuffledBuckets c))
          currentIndices := Function.update s.currentIndices c 0
          lastUsedBucket := (c.val : Int) }
      ∧ (getNext sh1 sh2 s t).1 =
          Except.ok ((sh1 (s.shuffledBuckets c)).getD 0 default)
      ∧ (getNext sh1 sh2 s t).2.lastUsedBucket = (c.val : Int))
    ∧ ((c.val : Int) = s.lastUsedBucket →
      switchReshuffle sh1 s c = s
      ∧ (getNext sh1 sh2 s t).2.lastUsedBucket = s.lastUsedBucket) := by
  have hne := chooseBucket_nonempty hch
  have hpos : 0 < (s.shuffledBuckets c).length := List.length_pos.mpr hne
  have hg : getNext sh1 sh2 s t = readAdvance sh2 (switchReshuffle sh1 s c) c := by
    unfold getNext
    rw [hch]
  constructor
  · intro hsw
    have hs1 : switchReshuffle sh1 s c =
        { shuffledBuckets :=
            Function.update s.shuffledBuckets c (sh1 (s.shuffledBuckets c))
          currentIndices := Function.update s.currentIndices c 0
          lastUsedBucket := (c.val : Int) } := by
      simp [switchReshuffle, hsw]
    refine ⟨hs1, ?_, ?_⟩
    · rw [hg, hs1]
      unfold readAdvance
      simp only [Function.update_same]
      split_ifs with h
      · have hlen1 : (sh1 (s.shuffledBuckets c)).length = 1 := by
          have hl := (hp1 (s.shuffledBuckets c)).length_eq
          omega
        obtain ⟨a, ha⟩ := List.length_eq_one.mp hlen1
        have hs2 : sh2 [a] = [a] := List.perm_singleton.mp (hp2 [a])
        rw [ha, hs2]
      · rfl
    · rw [hg, hs1]
      unfold readAdvance
      split_ifs <;> rfl
  · intro hsw
    have hs1 : switchReshuffle sh1 s c = s := by
      simp [switchReshuffle, hsw]
    refine ⟨hs1, ?_⟩
    rw [hg, hs1]
    unfold readAdvance
    split_ifs <;> rfl

/-- Claim C7 witness: fresh iterator over bucket 0 holding two images,
target 0: the first call reads the reshuffled order at 0 and sets
lastUsedBucket to 0. -/
theorem c7_switch_reset_witness :
    (getNext id id c7state 0).1 =
      Except.ok ((id (c7state.shuffledBuckets 0)).getD 0 default)
    ∧ (getNext id id c7state 0).2.lastUsedBucket = (((0 : Fin 6)).val : Int) :=
  ((c7_switch_reset id id (fun l => List.Perm.refl l) (fun l => List.Perm.refl l)
      c7state 0 0 (by decide)).1 (by decide)).2

/-- Claim C8 counterexample: the data row with path a and score 0 is not
rejected by loadBuckets; it is placed in bucket 5, against the claim that a
row with score at most 0 is never placed in any bucket. -/
theorem c8_counterexample :
    loadBuckets [["path", "score"], ["a", "0"]] 5 = [⟨"a", 0⟩]
    ∧ (⟨"a", 0⟩ : DarkScoreResult) ∈ loadBuckets [["path", "score"], ["a", "0"]] 5 := by
  have hp : parseRow ["a", "0"] = some ⟨"a", 0⟩ := rfl
  have hg : getDarknessBucket 0 = 5 := by norm_num [getDarknessBucket]
  have h5 : loadBuckets [["path", "score"], ["a", "0"]] 5 = [⟨"a", 0⟩] := by
    show loadLoop (fun _ => []) [["a", "0"]] 5 = [⟨"a", 0⟩]
    unfold loadLoop
    rw [hp]
    unfold loadLoop
    simp [hg, Function.update]
  exact ⟨h5, by rw [h5]; exact List.mem_singleton.mpr rfl⟩

/-- Claim C8 amended: loadBuckets skips the header row, skips every
malformed data row (fewer than two fields or unparsable score) without
aborting the load, keeping exactly the rows parseRow accepts in order, and a
row whose parsed score is at most 0 is not rejected: getDarknessBucket sends
it to bucket 5. -/
theorem c8_loader (lines : List (List String)) (b : Fin 6) (fields : List String)
    (sc : ℚ) (hmal : fields.length < 2 ∨ parseScore (fields.getD 1 "") = none)
    (hsc : sc ≤ 0) :
    loadBuckets lines b =
      ((lines.drop 1).filterMap parseRow).filter
        (fun img => getDarknessBucket img.score = b)
    ∧ parseRow fields = none
    ∧ getDarknessBucket sc = 5 := by
  refine ⟨?_, ?_, ?_⟩
  · show loadLoop (fun _ => []) (lines.drop 1) b = _
    generalize lines.drop 1 = rows
    have hstep_none : ∀ (acc : Buckets) (fields : List String)
        (rest : List (List String)), parseRow fields = none →
        loadLoop acc (fields :: rest) = loadLoop acc rest := by
      intro acc fields rest hp
      simp only [loadLoop]
      rw [hp]
    have hstep_some : ∀ (acc : Buckets) (fields : List String)
        (rest : List (List String)) (img : DarkScoreResult),
        parseRow fields = some img →
        loadLoop acc (fields :: rest) =
          loadLoop (Function.update acc (getDarknessBucket img.score)
            (acc (getDarknessBucket img.score) ++ [img])) rest := by
      intro acc fields rest img hp
      simp only [loadLoop]
      rw [hp]
    have key : ∀ (rows : List (List String)) (acc : Buckets) (b : Fin 6),
        loadLoop acc rows b =
          acc b ++ (rows.filterMap parseRow).filter
            (fun img => getDarknessBucket img.score = b) := by
      intro rows
      induction rows with
      | nil => intro acc b; simp [loadLoop]
      | cons fields rest ih =>
        intro acc b
        cases hp : parseRow fields with
        | none =>
          rw [hstep_none acc fields rest hp, ih]
          simp [List.filterMap_cons, hp]
        | some img =>
          rw [hstep_some acc fields rest img hp, ih]
          by_cases hb : getDarknessBucket img.score = b
          · rw [← hb]
            simp [List.filterMap_cons, hp, Function.update_same,
              List.filter_cons, List.append_assoc]
          · have hupd : Function.update acc (getDarknessBucket img.score)
                (acc (getDarknessBucket img.score) ++ [img]) b = acc b :=
              Function.update_noteq (fun he => hb he.symm) _ _
            rw [hupd]
            simp [List.filterMap_cons, hp, List.filter_cons, hb]
    rw [key rows (fun _ => []) b]
    rfl
  · rcases hmal with h | h
    · simp [parseRow, h]
    · unfold parseRow
      rw [h]
      simp
  · unfold getDarknessBucket
    split_ifs <;> first | rfl | linarith

/-- Claim C8 amended witness: on a file of a header row and one row with
score field minus one, the loader keeps the row, and the score minus one
classifies to bucket 5; the malformed row with a single field is skipped. -/
theorem c8_loader_witness :
    loadBuckets [["path", "score"], ["b", "-1"]] 5 =
      (([["b", "-1"]] : List (List String)).filterMap parseRow).filter
        (fun img => getDarknessBucket img.score = 5)
    ∧ parseRow ["lonely"] = none
    ∧ getDarknessBucket (-1) = 5 :=
  c8_loader [["path", "score"], ["b", "-1"]] 5 ["lonely"] (-1)
    (Or.inl (by decide)) (by norm_num)

/-- Claim C9: the fallback resolution of single execution mode is the same
function of the buckets and the target as the fallback resolution used by
getNext, and the one-shot pick returns a member of the resolved bucket for
any in-range random index; the one-shot path takes no iterator state at
all. -/
theorem c9_oneshot_equiv :
    (∀ (bs : Buckets) (t : Fin 6), oneShotChoose bs t = chooseBucket bs t)
    ∧ (∀ (bs : Buckets) (t c : Fin 6) (r : Nat),
        oneShotChoose bs t = some c → r < (bs c).length →
        ∃ img, oneShotSelect bs t r = some img ∧ img ∈ bs c) := by
  constructor
  · intro bs t
    unfold oneShotChoose chooseBucket fallbackSearch bucketsNonempty
    cases h : (bs t).isEmpty <;> simp [h]
  · intro bs t c r hc hr
    refine ⟨(bs c).getD r default, ?_, getD_mem_of_lt hr⟩
    unfold oneShotSelect
    rw [hc]

/-- Claim C9 witness: with bucket 1 holding two images and target 3, the
one-shot pick at random index 1 returns a member of bucket 1. -/
theorem c9_oneshot_equiv_witness :
    ∃ img, oneShotSelect c9buckets 3 1 = some img ∧ img ∈ c9buckets 1 :=
  c9_oneshot_equiv.2 c9buckets 3 1 1 (by decide) (by decide)

/-- Claim C10: the iterator invariant holds after construction, with every
bucket a permutation of its initial membership, and is preserved by every
getNext call, successful or failing, which also keeps every bucket a
permutation of what it was before the call. -/
theorem c10_iterator_invariant :
    (∀ (buckets : Buckets) (sh : Fin 6 → Shuffle),
      (∀ i l, (sh i l).Perm l) →
      IterInv (initIter buckets sh)
      ∧ ∀ i, ((initIter buckets sh).shuffledBuckets i).Perm (buckets i))
    ∧ (∀ (sh1 sh2 : Shuffle) (s : IterState) (t : Fin 6),
        (∀ l, (sh1 l).Perm l) → (∀ l, (sh2 l).Perm l) → IterInv s →
        IterInv (getNext sh1 sh2 s t).2
        ∧ ∀ i, ((getNext sh1 sh2 s t).2.shuffledBuckets i).Perm (s.shuffledBuckets i)) := by
  constructor
  · intro buckets sh hp
    constructor
    · intro i
      refine ⟨fun _ => rfl, fun hnn => ?_⟩
      show 0 < ((initIter buckets sh).shuffledBuckets i).length
      exact List.length_pos.mpr hnn
    · intro i
      exact hp i (buckets i)
  · intro sh1 sh2 s t hp1 hp2 hinv
    unfold getNext
    cases hc : chooseBucket s.shuffledBuckets t with
    | none => exact ⟨hinv, fun i => List.Perm.refl _⟩
    | some c =>
      have hnec := chooseBucket_nonempty hc
      obtain ⟨hperm, hlt, hinv1, hperms⟩ :=
        switchReshuffle_facts sh1 hp1 s c hinv hnec
      obtain ⟨_, hinv2, hperms2⟩ :=
        readAdvance_facts sh2 hp2 (switchReshuffle sh1 s c) c hlt hinv1
      exact ⟨hinv2, fun i => (hperms2 i).trans (hperms i)⟩

/-- Claim C10 witness: the invariant holds for the fresh iterator over
buckets 2 and 5 and still holds after one getNext call at target 0. -/
theorem c10_iterator_invariant_witness :
    IterInv (initIter c10buckets (fun _ => id))
    ∧ IterInv (getNext id id c10state 0).2 :=
  ⟨(c10_iterator_invariant.1 c10buckets (fun _ => id)
      (fun i l => List.Perm.refl l)).1,
   (c10_iterator_invariant.2 id id c10state 0
      (fun l => List.Perm.refl l) (fun l => List.Perm.refl l) (by decide)).1⟩

end DarkscoreSelect
